import Mathlib

/-!
Verification development for the fintechHackathon repository.

The definitions below are shallow embeddings of the JavaScript source:
  * `src/front/fintech/src/data/companies.js` (directory search),
  * `src/front/fintech/src/api/api.js` (error-message construction),
  * `src/front/fintech/src/components/CompanySearchPopup.jsx` (onboarding
    workflow of `handleAddCompany`, modelled as an action trace),
  * `src/unnamed/part_002` (the `CardPopup` variant with `loadCompanyData`
    and the verification-data helpers `getSampleMetrics`,
    `getFormattedPromises`, `getFormattedTruths`, `getSourcesForMetric`),
  * `src/unnamed/part_000` (the `Dashboard` with `handleAddCompany`).

JavaScript strings are modelled as Lean `String` (`List Char` data), with
`toLowerCase` as ASCII `Char.toLower`, `trim` as dropping whitespace at both
ends, and `includes` as substring containment (so `includes("")` is `true`,
exactly as in JavaScript).
-/

namespace Fintech

/-- ASCII model of JavaScript `String.prototype.toLowerCase`. -/
def jsToLower (s : String) : String := ⟨s.data.map Char.toLower⟩

/-- List-level model of JavaScript `String.prototype.trim`:
drop whitespace from both ends. -/
def jsTrimList (l : List Char) : List Char :=
  ((l.dropWhile Char.isWhitespace).reverse.dropWhile Char.isWhitespace).reverse

/-- JavaScript `String.prototype.trim`. -/
def jsTrim (s : String) : String := ⟨jsTrimList s.data⟩

/-- Auxiliary: does `hay` start with `needle`? (first argument is the needle). -/
def beginsWithList : List Char → List Char → Bool
  | [], _ => true
  | _ :: _, [] => false
  | a :: as, b :: bs => a == b && beginsWithList as bs

/-- Auxiliary: does the haystack contain `needle` as a contiguous run?
An empty needle is contained in every haystack, as in JavaScript. -/
def containsSubList (needle : List Char) : List Char → Bool
  | [] => beginsWithList needle []
  | c :: cs => beginsWithList needle (c :: cs) || containsSubList needle cs

/-- JavaScript `hay.includes(needle)`. -/
def jsIncludes (hay needle : String) : Bool :=
  containsSubList needle.data hay.data

/-- One entry of the static company directory (`companiesDatabase`). -/
structure CompanyEntry where
  name : String
  domain : String
deriving DecidableEq, Repr

set_option maxHeartbeats 2000000 in
/-- The static directory from `src/front/fintech/src/data/companies.js`,
in its source order. -/
def companiesDatabase : List CompanyEntry := [
  ⟨"OpenAI", "openai.com"⟩,
  ⟨"Google", "google.com"⟩,
  ⟨"Apple", "apple.com"⟩,
  ⟨"Microsoft", "microsoft.com"⟩,
  ⟨"Amazon", "amazon.com"⟩,
  ⟨"Meta", "meta.com"⟩,
  ⟨"Tesla", "tesla.com"⟩,
  ⟨"Netflix", "netflix.com"⟩,
  ⟨"NVIDIA", "nvidia.com"⟩,
  ⟨"AMD", "amd.com"⟩,
  ⟨"Intel", "intel.com"⟩,
  ⟨"IBM", "ibm.com"⟩,
  ⟨"Oracle", "oracle.com"⟩,
  ⟨"Adobe", "adobe.com"⟩,
  ⟨"Salesforce", "salesforce.com"⟩,
  ⟨"Shopify", "shopify.com"⟩,
  ⟨"Zoom", "zoom.us"⟩,
  ⟨"Slack", "slack.com"⟩,
  ⟨"Dropbox", "dropbox.com"⟩,
  ⟨"Atlassian", "atlassian.com"⟩,
  ⟨"GitHub", "github.com"⟩,
  ⟨"GitLab", "gitlab.com"⟩,
  ⟨"Docker", "docker.com"⟩,
  ⟨"Red Hat", "redhat.com"⟩,
  ⟨"VMware", "vmware.com"⟩,
  ⟨"Cisco", "cisco.com"⟩,
  ⟨"HP", "hp.com"⟩,
  ⟨"Dell", "dell.com"⟩,
  ⟨"Samsung", "samsung.com"⟩,
  ⟨"Sony", "sony.com"⟩,
  ⟨"Nintendo", "nintendo.com"⟩,
  ⟨"Stripe", "stripe.com"⟩,
  ⟨"PayPal", "paypal.com"⟩,
  ⟨"Square", "square.com"⟩,
  ⟨"Coinbase", "coinbase.com"⟩,
  ⟨"Robinhood", "robinhood.com"⟩,
  ⟨"Revolut", "revolut.com"⟩,
  ⟨"N26", "n26.com"⟩,
  ⟨"Chime", "chime.com"⟩,
  ⟨"Plaid", "plaid.com"⟩,
  ⟨"Visa", "visa.com"⟩,
  ⟨"Mastercard", "mastercard.com"⟩,
  ⟨"JPMorgan Chase", "jpmorganchase.com"⟩,
  ⟨"Goldman Sachs", "goldmansachs.com"⟩,
  ⟨"Morgan Stanley", "morganstanley.com"⟩,
  ⟨"Bank of America", "bankofamerica.com"⟩,
  ⟨"Wells Fargo", "wellsfargo.com"⟩,
  ⟨"Citigroup", "citi.com"⟩,
  ⟨"Uber", "uber.com"⟩,
  ⟨"Airbnb", "airbnb.com"⟩,
  ⟨"Spotify", "spotify.com"⟩,
  ⟨"Twitter", "twitter.com"⟩,
  ⟨"LinkedIn", "linkedin.com"⟩,
  ⟨"Walmart", "walmart.com"⟩,
  ⟨"Target", "target.com"⟩,
  ⟨"Costco", "costco.com"⟩,
  ⟨"Home Depot", "homedepot.com"⟩,
  ⟨"McDonald\x27s", "mcdonalds.com"⟩,
  ⟨"Starbucks", "starbucks.com"⟩,
  ⟨"Coca-Cola", "coca-cola.com"⟩,
  ⟨"Pepsi", "pepsi.com"⟩,
  ⟨"Nike", "nike.com"⟩,
  ⟨"Adidas", "adidas.com"⟩,
  ⟨"Lululemon", "lululemon.com"⟩,
  ⟨"Patagonia", "patagonia.com"⟩,
  ⟨"The North Face", "thenorthface.com"⟩,
  ⟨"Under Armour", "underarmour.com"⟩,
  ⟨"Disney", "disney.com"⟩,
  ⟨"Warner Bros", "warnerbros.com"⟩,
  ⟨"BMW", "bmw.com"⟩,
  ⟨"Mercedes-Benz", "mercedes-benz.com"⟩,
  ⟨"Volkswagen", "volkswagen.com"⟩,
  ⟨"Ford", "ford.com"⟩,
  ⟨"General Motors", "gm.com"⟩,
  ⟨"Boeing", "boeing.com"⟩,
  ⟨"Airbus", "airbus.com"⟩,
  ⟨"FedEx", "fedex.com"⟩,
  ⟨"UPS", "ups.com"⟩,
  ⟨"DHL", "dhl.com"⟩]

/-- `searchCompanies` from `src/front/fintech/src/data/companies.js`.
The JavaScript guard `!searchTerm || searchTerm.length < 1` is equivalent to
`searchTerm.length < 1`; the term is lower-cased and then trimmed, matches are
kept by substring containment against the lowered name or domain, and the
first 10 matches are returned. -/
def searchCompanies (searchTerm : String) : List CompanyEntry :=
  if searchTerm.length < 1 then []
  else
    let term := jsTrim (jsToLower searchTerm)
    (companiesDatabase.filter (fun company =>
      jsIncludes (jsToLower company.name) term ||
      jsIncludes (jsToLower company.domain) term)).take 10

/-- The debounced-search effect in `CompanySearchPopup.jsx`: the component
invokes `searchCompanies` only when the trimmed input is non-empty, and
otherwise sets the result list to empty. -/
def popupSearchResults (searchTerm : String) : List CompanyEntry :=
  if (jsTrim searchTerm).length > 0 then searchCompanies searchTerm else []

example : searchCompanies "apple" = [⟨"Apple", "apple.com"⟩] := by decide

example : searchCompanies "" = [] := by decide

example : searchCompanies "   " ≠ [] := by decide

/-! ## Metric-key label formatting (`key.replace(/_/g, ' ').replace(/\b\w/g, l => l.toUpperCase())`) -/

/-- JavaScript `\w`: ASCII letter, digit, or underscore. -/
def isWordChar (c : Char) : Bool := c.isAlphanum || c == '_'

/-- Model of `replace(/\b\w/g, l => l.toUpperCase())`: upper-case every word
character that is not preceded by a word character. The boolean argument
records whether the previous character of the input was a word character. -/
def capWordsAux : Bool → List Char → List Char
  | _, [] => []
  | prevWord, c :: cs =>
      (if isWordChar c && !prevWord then c.toUpper else c) ::
        capWordsAux (isWordChar c) cs

/-- JavaScript `s.replace(/\b\w/g, l => l.toUpperCase())`. -/
def capitalizeWords (s : String) : String := ⟨capWordsAux false s.data⟩

/-- JavaScript `s.replace(/_/g, ' ')`. -/
def underscoreToSpace (s : String) : String :=
  ⟨s.data.map (fun c => if c == '_' then ' ' else c)⟩

/-- The label expression at the sample-metrics panel render site
(`CardPopup`, metrics grid). -/
def labelAtSampleMetricsPanel (key : String) : String :=
  capitalizeWords (underscoreToSpace key)

/-- The label expression inside `getFormattedPromises`. -/
def labelAtPromisesList (key : String) : String :=
  capitalizeWords (underscoreToSpace key)

/-- The label expression inside `getFormattedTruths`. -/
def labelAtTruthsList (key : String) : String :=
  capitalizeWords (underscoreToSpace key)

/-- The label expression at the citation ("Sources for Verification") modal
render site. -/
def labelAtCitationModal (key : String) : String :=
  capitalizeWords (underscoreToSpace key)

example : labelAtTruthsList "ghg_emissions" = "Ghg Emissions" := by decide

/-! ## The analysis payload and the `CardPopup` verification-data helpers -/

/-- A source citation `{url, description}`. -/
structure Citation where
  url : String
  description : Option String
deriving DecidableEq, Repr

/-- The raw analysis payload returned by the backend. Fields that the
JavaScript dereferences behind optional-chaining or truthiness guards are
modelled as `Option`; `promise`, `truth` and `metric_sources` objects are
modelled as association lists in their JavaScript key-insertion order. -/
structure AnalysisPayload where
  name : String
  ticker : String
  esg_report : String
  promise : Option (List (String × String))
  truth : Option (List (String × Bool))
  metric_sources : Option (List (String × List Citation))
  sources : Option (List Citation)
deriving DecidableEq, Repr

/-- JavaScript object property access `ms[key]`: the value at the first
matching key, if any. -/
def msLookup {α : Type} : List (String × α) → String → Option α
  | [], _ => none
  | (k, v) :: rest, key => if k == key then some v else msLookup rest key

/-- One entry of the `getFormattedPromises` result. -/
structure PromiseView where
  metric : String
  value : String
deriving DecidableEq, Repr

/-- One entry of the `getFormattedTruths` result (the `part_002` variant,
which also keeps the raw `metricKey`). -/
structure TruthView where
  metricKey : String
  metric : String
  verified : Bool
deriving DecidableEq, Repr

/-- `getSampleMetrics` from `src/unnamed/part_002`: the first 10 entries of
`promise`, or an empty object when the data or the field is absent. -/
def getSampleMetrics (companyData : Option AnalysisPayload) :
    List (String × String) :=
  match companyData with
  | none => []
  | some d =>
    match d.promise with
    | none => []
    | some p => p.take 10

/-- `getFormattedPromises` from `src/unnamed/part_002`: the first 20 entries
of `promise`, keys formatted into labels, values passed through. -/
def getFormattedPromises (companyData : Option AnalysisPayload) :
    List PromiseView :=
  match companyData with
  | none => []
  | some d =>
    match d.promise with
    | none => []
    | some p => (p.take 20).map (fun kv => ⟨labelAtPromisesList kv.1, kv.2⟩)

/-- `getFormattedTruths` from `src/unnamed/part_002`: the first 20 entries of
`truth`, each with the raw boolean as its `verified` flag. -/
def getFormattedTruths (companyData : Option AnalysisPayload) :
    List TruthView :=
  match companyData with
  | none => []
  | some d =>
    match d.truth with
    | none => []
    | some t => (t.take 20).map (fun kv => ⟨kv.1, labelAtTruthsList kv.1, kv.2⟩)

/-- `getSourcesForMetric` from `src/unnamed/part_002`:
`companyData.metric_sources[metricKey] || []`. -/
def getSourcesForMetric (companyData : Option AnalysisPayload)
    (metricKey : String) : List Citation :=
  match companyData with
  | none => []
  | some d =>
    match d.metric_sources with
    | none => []
    | some ms =>
      match msLookup ms metricKey with
      | some l => l
      | none => []

/-! ## Error-message construction (`src/front/fintech/src/api/api.js`) -/

/-- The template-literal message for a non-2xx response,
`HTTP error! status: N`. -/
def httpErrorMessage (status : Nat) : String :=
  "HTTP error! status: " ++ toString status

/-- The error message surfaced by `addCompany` for a non-2xx response.
`parsedBody = none` models an unparseable body (the `.catch` substitutes
`{detail: 'Unknown error'}`); `parsedBody = some detail` models a parsed JSON
body whose `detail` field is `detail` (absent, or a string, where the empty
string is falsy for `errorData.detail || fallback`). -/
def addCompanyErrorMessage (parsedBody : Option (Option String))
    (status : Nat) : String :=
  let errorDetail : Option String :=
    match parsedBody with
    | none => some "Unknown error"
    | some detail => detail
  match errorDetail with
  | some s => if s == "" then httpErrorMessage status else s
  | none => httpErrorMessage status

/-- The error message thrown by `fetchPortfolio` for a non-2xx response: it
never reads the response body. -/
def fetchPortfolioErrorMessage (status : Nat) : String :=
  httpErrorMessage status

/-- The error message thrown by `fetchCompanyData` for a non-2xx response. -/
def fetchCompanyDataErrorMessage (ticker : String) (status : Nat) : String :=
  if status == 404 then "Company with ticker " ++ ticker ++ " not found"
  else httpErrorMessage status

/-- The rule stated by the spec for non-2xx responses, written from the
spec's words for comparison with `addCompanyErrorMessage`: surface the JSON
body's `detail` string when a parseable body with a `detail` field is
present; in the absence of a parseable body, fall back to the generic
status message. -/
def specNon2xxMessage (parsedBody : Option (Option String))
    (status : Nat) : String :=
  match parsedBody with
  | some (some s) => s
  | _ => httpErrorMessage status

example : addCompanyErrorMessage none 500 = "Unknown error" := by decide

example : specNon2xxMessage none 500 = "HTTP error! status: 500" := by decide

/-! ## The onboarding workflow in `CompanySearchPopup.jsx` (`handleAddCompany`) -/

/-- A company picked in the search popup: a directory entry (always carrying
`name` and `domain`; search results carry no `ticker`, so it is `none`). -/
structure OrganizationRef where
  name : String
  domain : String
  ticker : Option String
deriving DecidableEq, Repr

/-- JavaScript `t || null` on an optional string: falsy (absent or empty)
collapses to `null`. -/
def jsOrNull (t : Option String) : Option String :=
  match t with
  | some s => if s == "" then none else some s
  | none => none

/-- JavaScript `m || fallback` on a string message. -/
def jsMessageOr (m fallback : String) : String :=
  if m == "" then fallback else m

/-- JavaScript falsiness of an optional string (`!ticker`). -/
def jsFalsyStr : Option String → Bool
  | none => true
  | some s => s == ""

/-- The observable steps `handleAddCompany` performs, in order. `callBackend`
is the `addCompany` HTTP POST; `invokeOnAdd` is the `onAddCompany(result)`
callback through which the dashboard appends to the portfolio;
`startStepInterval`/`clearStepInterval` are the progress-simulation timer. -/
inductive PopupAction where
  | setIsAdding (b : Bool)
  | setAddingCompany (s : Option String)
  | setError (e : Option String)
  | setCurrentStep (n : Nat)
  | startStepInterval
  | callBackend (companyName : String) (ticker : Option String)
  | clearStepInterval
  | invokeOnAdd
  | invokeClose
deriving DecidableEq, Repr

/-- `handleAddCompany` from `CompanySearchPopup.jsx` (lines 146-182 of the
later variant), as the ordered trace of actions it performs when the awaited
backend call resolves to `result`. The backend call is issued
unconditionally; on success the step is force-set to 2 and the
`onAddCompany`/`onClose` callbacks run; on failure the error message is
retained and the step is reset to 0 with no callback. -/
def popupHandleAddCompany (company : OrganizationRef)
    (result : Except String AnalysisPayload) : List PopupAction :=
  [ .setIsAdding true,
    .setAddingCompany (some company.name),
    .setError none,
    .setCurrentStep 0,
    .startStepInterval,
    .callBackend company.name (jsOrNull company.ticker) ] ++
  match result with
  | .ok _ =>
      [ .clearStepInterval,
        .setCurrentStep 2,
        .invokeOnAdd,
        .invokeClose ]
  | .error msg =>
      [ .clearStepInterval,
        .setError (some (jsMessageOr msg "Failed to add company. Please try again.")),
        .setIsAdding false,
        .setAddingCompany none,
        .setCurrentStep 0 ]

/-- One firing of the popup's progress interval:
`setCurrentStep(prev => prev < 1 ? prev + 1 : prev)`. -/
def addTick (p : Nat) : Nat := if p < 1 then p + 1 else p

/-- The popup's step counter after `n` interval firings, starting from the
`setCurrentStep(0)` issued at submission. -/
def addStepAfterTicks : Nat → Nat
  | 0 => 0
  | n + 1 => addTick (addStepAfterTicks n)

/-- The terminal ("all steps complete") step value the popup sets only on
backend success. -/
def addSuccessStep : Nat := 2

/-! ## `loadCompanyData` and rendering in the `CardPopup` (`src/unnamed/part_002`) -/

/-- The component state of `CardPopup` that `loadCompanyData` mutates. -/
structure CardState where
  companyData : Option AnalysisPayload
  loading : Bool
  error : Option String
  currentStep : Nat
deriving DecidableEq, Repr

/-- The observable steps `loadCompanyData` performs. `fetchData` is the
`fetchCompanyData(ticker)` HTTP GET. -/
inductive CardAction where
  | setLoading (b : Bool)
  | setError (e : Option String)
  | setCurrentStep (n : Nat)
  | startStepInterval
  | fetchData (ticker : String)
  | clearStepInterval
  | setCompanyData (d : AnalysisPayload)
deriving DecidableEq, Repr

/-- `loadCompanyData` from `src/unnamed/part_002` (lines 16-57), as the
ordered trace of actions performed when the awaited fetch resolves to
`result` (with the component still mounted). A falsy ticker returns at once
with no fetch. On success the interval is cleared and nulled, the step is
force-set to 3 and the data stored; on failure only the error message is
set. The `finally` block clears the interval when still pending (the error
path), stops loading, and resets the step. -/
def loadCompanyDataActions (ticker : Option String)
    (result : Except String AnalysisPayload) : List CardAction :=
  if jsFalsyStr ticker then []
  else
    [ .setLoading true,
      .setError none,
      .setCurrentStep 0,
      .startStepInterval,
      .fetchData (ticker.getD "") ] ++
    (match result with
     | .ok d =>
         [ .clearStepInterval,
           .setCurrentStep 3,
           .setCompanyData d,
           .setLoading false,
           .setCurrentStep 0 ]
     | .error msg =>
         [ .setError (some (jsMessageOr msg "Failed to load company data")),
           .clearStepInterval,
           .setLoading false,
           .setCurrentStep 0 ])

/-- Apply one `CardAction` to the component state. Timer and network actions
do not change the state. -/
def applyCardAction (st : CardState) : CardAction → CardState
  | .setLoading b => { st with loading := b }
  | .setError e => { st with error := e }
  | .setCurrentStep n => { st with currentStep := n }
  | .startStepInterval => st
  | .fetchData _ => st
  | .clearStepInterval => st
  | .setCompanyData d => { st with companyData := some d }

/-- The component state after one complete `loadCompanyData` run. -/
def loadCompanyDataFinal (ticker : Option String) (st : CardState)
    (result : Except String AnalysisPayload) : CardState :=
  (loadCompanyDataActions ticker result).foldl applyCardAction st

/-- One firing of the card's progress interval:
`setCurrentStep(prev => prev < 2 ? prev + 1 : prev)`. -/
def cardTick (p : Nat) : Nat := if p < 2 then p + 1 else p

/-- The card's step counter after `n` interval firings. -/
def cardStepAfterTicks : Nat → Nat
  | 0 => 0
  | n + 1 => cardTick (cardStepAfterTicks n)

/-- The terminal step value the card sets only on fetch success. -/
def cardSuccessStep : Nat := 3

/-- What `CardPopup` renders. -/
inductive CardRender where
  | nothing
  | view (st : CardState)
deriving DecidableEq, Repr

/-- The `if (!ticker) return null` guard of `CardPopup`: with a falsy ticker
the component renders nothing. -/
def cardPopupRender (ticker : Option String) (st : CardState) : CardRender :=
  if jsFalsyStr ticker then .nothing else .view st

/-! ## The dashboard portfolio (`src/unnamed/part_000`, `handleAddCompany`) -/

/-- A portfolio entry kept by the dashboard (`{id, name, domain}`). -/
structure DashCompany where
  id : Nat
  name : String
  domain : String
deriving DecidableEq, Repr

/-- The new-entry id: `Math.max(...ids) + 1` over a non-empty portfolio,
else 1. Over natural ids, `Math.max` is the fold of `Nat.max` from 0. -/
def nextCompanyId (companies : List DashCompany) : Nat :=
  match companies with
  | [] => 1
  | _ :: _ => (companies.map (fun c => c.id)).foldl Nat.max 0 + 1

/-- `handleAddCompany` from the dashboard (`src/unnamed/part_000`, lines
83-102): runs only after the popup's backend call has succeeded. If an entry
with the same domain exists, it alerts and returns without appending;
otherwise it appends a fresh entry. The second component is the alert
message, if any. -/
def dashboardHandleAddCompany (companies : List DashCompany)
    (name domain : String) : List DashCompany × Option String :=
  if companies.any (fun c => c.domain == domain) then
    (companies, some (name ++ " is already in your portfolio!"))
  else
    (companies ++ [⟨nextCompanyId companies, name, domain⟩], none)

/-! ## Shared concrete data for witnesses and counterexamples -/

/-- A minimal payload for concrete instantiations. -/
def demoPayload : AnalysisPayload :=
  ⟨"Apple", "AAPL", "", none, none, none, none⟩

/-- A concrete card state holding previously displayed data. -/
def demoCardState : CardState := ⟨some demoPayload, false, none, 0⟩

/-- A portfolio already containing Apple. -/
def applePortfolio : List DashCompany := [⟨1, "Apple", "apple.com"⟩]

/-- The Apple directory entry as picked in the search popup. -/
def appleRef : OrganizationRef := ⟨"Apple", "apple.com", none⟩

/-! ## Supporting lemmas -/

/-- The popup's step counter after `n` ticks is `min n 1`: it saturates at
step 1, the last non-terminal step. -/
theorem addStepAfterTicks_eq (n : Nat) : addStepAfterTicks n = min n 1 := by
  induction n with
  | zero => rfl
  | succ k ih =>
    simp only [addStepAfterTicks, addTick, ih]
    split <;> omega

/-- The card's step counter after `n` ticks is `min n 2`: it saturates at
step 2, the last non-terminal step. -/
theorem cardStepAfterTicks_eq (n : Nat) : cardStepAfterTicks n = min n 2 := by
  induction n with
  | zero => rfl
  | succ k ih =>
    simp only [cardStepAfterTicks, cardTick, ih]
    split <;> omega

/-- A string of length below one is the empty string. -/
theorem eq_empty_of_length_lt_one (q : String) (h : q.length < 1) : q = "" := by
  cases q with
  | mk data =>
    cases data with
    | nil => rfl
    | cons c cs => simp [String.length] at h

/-! ## Claim theorems -/

/-- C1: within a single onboarding job, the synthetic progress step counter
is monotonically non-decreasing, advances only while the backend response is
pending (the interval is cleared on either outcome), saturates at the last
non-terminal step (1 for the popup's 2-terminal counter, 2 for the card's
3-terminal counter) while waiting, never reaches the terminal value from
ticks alone, and is force-set to the terminal value exactly on backend
success. -/
theorem progress_step_counter_invariant (n m : Nat)
    (company : OrganizationRef) (payload : AnalysisPayload)
    (result : Except String AnalysisPayload) (tk : Option String)
    (hnm : n ≤ m) (htk : jsFalsyStr tk = false) :
    addStepAfterTicks n ≤ addStepAfterTicks m ∧
    addStepAfterTicks n = min n 1 ∧
    addStepAfterTicks n < addSuccessStep ∧
    PopupAction.setCurrentStep addSuccessStep ∈
      popupHandleAddCompany company (Except.ok payload) ∧
    PopupAction.clearStepInterval ∈ popupHandleAddCompany company result ∧
    cardStepAfterTicks n ≤ cardStepAfterTicks m ∧
    cardStepAfterTicks n = min n 2 ∧
    cardStepAfterTicks n < cardSuccessStep ∧
    CardAction.setCurrentStep cardSuccessStep ∈
      loadCompanyDataActions tk (Except.ok payload) ∧
    CardAction.clearStepInterval ∈ loadCompanyDataActions tk result := by
  refine ⟨?_, addStepAfterTicks_eq n, ?_, ?_, ?_, ?_, cardStepAfterTicks_eq n,
    ?_, ?_, ?_⟩
  · rw [addStepAfterTicks_eq, addStepAfterTicks_eq]; omega
  · have := addStepAfterTicks_eq n; simp only [addSuccessStep]; omega
  · simp [popupHandleAddCompany, addSuccessStep]
  · cases result <;> simp [popupHandleAddCompany]
  · rw [cardStepAfterTicks_eq, cardStepAfterTicks_eq]; omega
  · have := cardStepAfterTicks_eq n; simp only [cardSuccessStep]; omega
  · simp [loadCompanyDataActions, htk, cardSuccessStep]
  · cases result <;> simp [loadCompanyDataActions, htk]

/-- Witness for C1 at ticks 1 ≤ 5, the Apple submission, and ticker AAPL. -/
theorem progress_step_counter_invariant_witness :
    addStepAfterTicks 1 ≤ addStepAfterTicks 5 ∧
    addStepAfterTicks 1 = min 1 1 ∧
    addStepAfterTicks 1 < addSuccessStep ∧
    PopupAction.setCurrentStep addSuccessStep ∈
      popupHandleAddCompany appleRef (Except.ok demoPayload) ∧
    PopupAction.clearStepInterval ∈
      popupHandleAddCompany appleRef (Except.error "boom") ∧
    cardStepAfterTicks 1 ≤ cardStepAfterTicks 5 ∧
    cardStepAfterTicks 1 = min 1 2 ∧
    cardStepAfterTicks 1 < cardSuccessStep ∧
    CardAction.setCurrentStep cardSuccessStep ∈
      loadCompanyDataActions (some "AAPL") (Except.ok demoPayload) ∧
    CardAction.clearStepInterval ∈
      loadCompanyDataActions (some "AAPL") (Except.error "boom") :=
  progress_step_counter_invariant 1 5 appleRef demoPayload
    (Except.error "boom") (some "AAPL") (by decide) (by decide)

/-- C3: for every query that is non-empty after trimming, search returns at
most 10 results, each containing the lower-cased trimmed query as a
substring of the name or the domain, and the results are a sublist of the
directory, hence in its insertion order. -/
theorem searchCompanies_spec (q : String) (h : jsTrim q ≠ "") :
    (searchCompanies q).length ≤ 10 ∧
    (∀ r ∈ searchCompanies q,
      jsIncludes (jsToLower r.name) (jsTrim (jsToLower q)) = true ∨
      jsIncludes (jsToLower r.domain) (jsTrim (jsToLower q)) = true) ∧
    List.Sublist (searchCompanies q) companiesDatabase := by
  have hq : ¬ q.length < 1 := by
    intro hlt
    exact h (by rw [eq_empty_of_length_lt_one q hlt]; rfl)
  have hsearch : searchCompanies q =
      (companiesDatabase.filter (fun company =>
        jsIncludes (jsToLower company.name) (jsTrim (jsToLower q)) ||
        jsIncludes (jsToLower company.domain) (jsTrim (jsToLower q)))).take 10 := by
    unfold searchCompanies
    rw [if_neg hq]
  refine ⟨?_, ?_, ?_⟩
  · rw [hsearch]; exact List.length_take_le 10 _
  · intro r hr
    rw [hsearch] at hr
    have hmem := List.mem_of_mem_take hr
    have hp := (List.mem_filter.mp hmem).2
    have hp2 : jsIncludes (jsToLower r.name) (jsTrim (jsToLower q)) = true ∨
        jsIncludes (jsToLower r.domain) (jsTrim (jsToLower q)) = true := by
      simpa using hp
    exact hp2
  · rw [hsearch]
    exact (List.take_sublist _ _).trans (List.filter_sublist _)

/-- Witness for C3 at the query "apple". -/
theorem searchCompanies_spec_witness :
    (searchCompanies "apple").length ≤ 10 ∧
    (∀ r ∈ searchCompanies "apple",
      jsIncludes (jsToLower r.name) (jsTrim (jsToLower "apple")) = true ∨
      jsIncludes (jsToLower r.domain) (jsTrim (jsToLower "apple")) = true) ∧
    List.Sublist (searchCompanies "apple") companiesDatabase :=
  searchCompanies_spec "apple" (by decide)

/-- C4 counterexample: `searchCompanies "   "` is not the empty sequence.
The guard tests the untrimmed string, the trim happens after lower-casing,
and JavaScript `includes("")` is true for every string, so a whitespace-only
query matches everything and the first ten directory entries are returned. -/
theorem searchCompanies_whitespace_counterexample :
    searchCompanies "   " =
      [⟨"OpenAI", "openai.com"⟩, ⟨"Google", "google.com"⟩,
       ⟨"Apple", "apple.com"⟩, ⟨"Microsoft", "microsoft.com"⟩,
       ⟨"Amazon", "amazon.com"⟩, ⟨"Meta", "meta.com"⟩,
       ⟨"Tesla", "tesla.com"⟩, ⟨"Netflix", "netflix.com"⟩,
       ⟨"NVIDIA", "nvidia.com"⟩, ⟨"AMD", "amd.com"⟩] ∧
    searchCompanies "   " ≠ [] := by
  constructor
  · decide
  · decide

/-- C4 amended: `searchCompanies ""` returns the empty sequence, and while
`searchCompanies` itself match-everythings on whitespace-only input, the
search popup's debounced effect only invokes it when the trimmed input is
non-empty, so the displayed results for a whitespace-only query are empty. -/
theorem searchCompanies_empty_amended (q : String) (h : jsTrim q = "") :
    searchCompanies "" = [] ∧ popupSearchResults q = [] := by
  constructor
  · decide
  · simp [popupSearchResults, h]

/-- Witness for the amended C4 at the query of three spaces. -/
theorem searchCompanies_empty_amended_witness :
    searchCompanies "" = [] ∧ popupSearchResults "   " = [] :=
  searchCompanies_empty_amended "   " (by decide)

/-- C2 counterexample: with Apple (same name and domain) already in the
portfolio, the popup's `handleAddCompany` still issues the backend call —
there is no pre-submission duplicate guard and no direct transition to a
failed state. -/
theorem duplicate_guard_counterexample :
    ((⟨1, "Apple", "apple.com"⟩ : DashCompany) ∈ applePortfolio ∧
     (⟨1, "Apple", "apple.com"⟩ : DashCompany).name = appleRef.name ∧
     (⟨1, "Apple", "apple.com"⟩ : DashCompany).domain = appleRef.domain) ∧
    PopupAction.callBackend "Apple" none ∈
      popupHandleAddCompany appleRef (Except.error "fail") := by
  refine ⟨⟨?_, rfl, rfl⟩, ?_⟩
  · decide
  · decide

/-- C2 amended: the popup issues the backend call for every submission,
regardless of portfolio membership; the only duplicate guard is in the
dashboard's add callback, which runs after backend success, matches by
domain only, leaves the portfolio unchanged, and surfaces an
"already in your portfolio" alert message instead of a failed workflow
state. -/
theorem duplicate_guard_amended (companies : List DashCompany)
    (company : OrganizationRef) (result : Except String AnalysisPayload)
    (name domain : String)
    (hdup : companies.any (fun c => c.domain == domain) = true) :
    PopupAction.callBackend company.name (jsOrNull company.ticker) ∈
      popupHandleAddCompany company result ∧
    dashboardHandleAddCompany companies name domain =
      (companies, some (name ++ " is already in your portfolio!")) := by
  constructor
  · cases result <;> simp [popupHandleAddCompany]
  · simp [dashboardHandleAddCompany, hdup]

/-- Witness for the amended C2 at the Apple duplicate. -/
theorem duplicate_guard_amended_witness :
    PopupAction.callBackend appleRef.name (jsOrNull appleRef.ticker) ∈
      popupHandleAddCompany appleRef (Except.ok demoPayload) ∧
    dashboardHandleAddCompany applePortfolio "Apple" "apple.com" =
      (applePortfolio, some ("Apple" ++ " is already in your portfolio!")) :=
  duplicate_guard_amended applePortfolio appleRef (Except.ok demoPayload)
    "Apple" "apple.com" (by decide)

/-- C5 counterexample: for a non-2xx `addCompany` response with an
unparseable body, the code surfaces "Unknown error" (the catch handler's
substitute detail), not the generic status message the claim requires. -/
theorem non2xx_message_counterexample :
    addCompanyErrorMessage none 500 = "Unknown error" ∧
    specNon2xxMessage none 500 = "HTTP error! status: 500" ∧
    addCompanyErrorMessage none 500 ≠ specNon2xxMessage none 500 := by
  refine ⟨by decide, by decide, by decide⟩

/-- C5 amended: `addCompany` surfaces the body's non-empty `detail` string
when the body parses; an unparseable body surfaces "Unknown error"; only a
parseable body whose `detail` is absent or empty falls back to the generic
"HTTP error! status: N" message. `fetchPortfolio` always surfaces the
generic status message without reading the body, and `fetchCompanyData`
surfaces a specific not-found message on 404. -/
theorem non2xx_message_amended (s ticker : String) (status : Nat)
    (h : s ≠ "") :
    addCompanyErrorMessage (some (some s)) status = s ∧
    addCompanyErrorMessage none status = "Unknown error" ∧
    addCompanyErrorMessage (some none) status = httpErrorMessage status ∧
    addCompanyErrorMessage (some (some "")) status = httpErrorMessage status ∧
    fetchPortfolioErrorMessage status = httpErrorMessage status ∧
    fetchCompanyDataErrorMessage ticker 404 =
      "Company with ticker " ++ ticker ++ " not found" := by
  refine ⟨?_, rfl, rfl, rfl, rfl, rfl⟩
  simp [addCompanyErrorMessage, h]

/-- Witness for the amended C5 at detail "boom", ticker AAPL, status 422. -/
theorem non2xx_message_amended_witness :
    addCompanyErrorMessage (some (some "boom")) 422 = "boom" ∧
    addCompanyErrorMessage none 422 = "Unknown error" ∧
    addCompanyErrorMessage (some none) 422 = httpErrorMessage 422 ∧
    addCompanyErrorMessage (some (some "")) 422 = httpErrorMessage 422 ∧
    fetchPortfolioErrorMessage 422 = httpErrorMessage 422 ∧
    fetchCompanyDataErrorMessage "AAPL" 404 =
      "Company with ticker " ++ "AAPL" ++ " not found" :=
  non2xx_message_amended "boom" "AAPL" 422 (by decide)

/-- The citation of the spec's worked example. -/
def ghgCitation : Citation := ⟨"https://x", some "report"⟩

/-- The payload of the spec's worked example: one promise, one truth, one
keyed citation list. -/
def ghgPayload : AnalysisPayload :=
  ⟨"Acme", "ACME", "",
   some [("ghg_emissions", "1000t")],
   some [("ghg_emissions", true)],
   some [("ghg_emissions", [ghgCitation])],
   none⟩

/-- C6: citation lookup is a direct key match into `metric_sources` — a key
present yields exactly that key's stored citation list, a key absent yields
the empty list rather than an error; on the spec's worked example the truths
entry is `Ghg Emissions`, verified, with exactly the stored citation. -/
theorem citation_lookup_spec (d : AnalysisPayload)
    (ms : List (String × List Citation)) (key : String)
    (hms : d.metric_sources = some ms) :
    getSourcesForMetric (some d) key = (msLookup ms key).getD [] ∧
    (msLookup ms key = none → getSourcesForMetric (some d) key = []) ∧
    (∀ l, msLookup ms key = some l → getSourcesForMetric (some d) key = l) ∧
    getFormattedTruths (some ghgPayload) =
      [⟨"ghg_emissions", "Ghg Emissions", true⟩] ∧
    getSourcesForMetric (some ghgPayload) "ghg_emissions" = [ghgCitation] := by
  refine ⟨?_, ?_, ?_, by decide, by decide⟩
  · cases hl : msLookup ms key <;> simp [getSourcesForMetric, hms, hl]
  · intro hn; simp [getSourcesForMetric, hms, hn]
  · intro l hl; simp [getSourcesForMetric, hms, hl]

/-- Witness for C6 at the worked example's payload, with an absent key. -/
theorem citation_lookup_spec_witness :
    getSourcesForMetric (some ghgPayload) "water_usage" = [] :=
  (citation_lookup_spec ghgPayload [("ghg_emissions", [ghgCitation])]
    "water_usage" rfl).2.1 (by decide)

/-- C7: the verification views are prefix slices with values passed through
unchanged — the sample-metrics view is exactly the first 10 promise entries
(values unmodified), the promises view is the first 20 promise entries
(labelled keys, values unmodified), and the truths view is the first 20
truth entries with the raw boolean as the `verified` flag. -/
theorem views_prefix_spec (d : AnalysisPayload)
    (p : List (String × String)) (t : List (String × Bool))
    (hp : d.promise = some p) (ht : d.truth = some t) :
    getSampleMetrics (some d) = p.take 10 ∧
    getFormattedPromises (some d) =
      (p.take 20).map (fun kv => ⟨labelAtPromisesList kv.1, kv.2⟩) ∧
    (getFormattedPromises (some d)).map PromiseView.value =
      (p.map Prod.snd).take 20 ∧
    getFormattedTruths (some d) =
      (t.take 20).map (fun kv => ⟨kv.1, labelAtTruthsList kv.1, kv.2⟩) ∧
    (getFormattedTruths (some d)).map TruthView.verified =
      (t.map Prod.snd).take 20 := by
  refine ⟨?_, ?_, ?_, ?_, ?_⟩ <;>
    simp [getSampleMetrics, getFormattedPromises, getFormattedTruths,
      hp, ht, List.map_take, List.map_map, Function.comp_def]

/-- Witness for C7 at the worked example's payload. -/
theorem views_prefix_spec_witness :
    getSampleMetrics (some ghgPayload) =
      [("ghg_emissions", "1000t")].take 10 ∧
    getFormattedPromises (some ghgPayload) =
      ([("ghg_emissions", "1000t")].take 20).map
        (fun kv => ⟨labelAtPromisesList kv.1, kv.2⟩) ∧
    (getFormattedPromises (some ghgPayload)).map PromiseView.value =
      ([("ghg_emissions", "1000t")].map Prod.snd).take 20 ∧
    getFormattedTruths (some ghgPayload) =
      ([("ghg_emissions", true)].take 20).map
        (fun kv => ⟨kv.1, labelAtTruthsList kv.1, kv.2⟩) ∧
    (getFormattedTruths (some ghgPayload)).map TruthView.verified =
      ([("ghg_emissions", true)].map Prod.snd).take 20 :=
  views_prefix_spec ghgPayload [("ghg_emissions", "1000t")]
    [("ghg_emissions", true)] rfl rfl

/-- C8: the metric-key-to-label formatting is a single deterministic
function, and the four call sites — the sample-metrics panel, the promises
list, the truths list, and the citation modal — produce the identical label
for every key. -/
theorem label_formatting_consistent (key : String) :
    labelAtSampleMetricsPanel key = labelAtPromisesList key ∧
    labelAtPromisesList key = labelAtTruthsList key ∧
    labelAtTruthsList key = labelAtCitationModal key ∧
    labelAtCitationModal key = capitalizeWords (underscoreToSpace key) :=
  ⟨rfl, rfl, rfl, rfl⟩

/-- C9: errors are atomic — a failed onboarding never invokes the dashboard
add callback (so the portfolio is untouched), the callback runs exactly on
success, and a failed detail fetch leaves the previously displayed company
data unchanged, setting only the error message. -/
theorem error_atomicity (company : OrganizationRef) (msg : String)
    (payload : AnalysisPayload) (tk : Option String) (st : CardState)
    (htk : jsFalsyStr tk = false) :
    PopupAction.invokeOnAdd ∉ popupHandleAddCompany company (Except.error msg) ∧
    PopupAction.invokeOnAdd ∈ popupHandleAddCompany company (Except.ok payload) ∧
    (loadCompanyDataFinal tk st (Except.error msg)).companyData =
      st.companyData ∧
    (loadCompanyDataFinal tk st (Except.error msg)).error =
      some (jsMessageOr msg "Failed to load company data") := by
  refine ⟨?_, ?_, ?_, ?_⟩
  · simp [popupHandleAddCompany]
  · simp [popupHandleAddCompany]
  · simp [loadCompanyDataFinal, loadCompanyDataActions, htk, applyCardAction]
  · simp [loadCompanyDataFinal, loadCompanyDataActions, htk, applyCardAction]

/-- Witness for C9 at the Apple submission failing with "boom", over a card
state already holding data. -/
theorem error_atomicity_witness :
    PopupAction.invokeOnAdd ∉
      popupHandleAddCompany appleRef (Except.error "boom") ∧
    PopupAction.invokeOnAdd ∈
      popupHandleAddCompany appleRef (Except.ok demoPayload) ∧
    (loadCompanyDataFinal (some "AAPL") demoCardState
      (Except.error "boom")).companyData = demoCardState.companyData ∧
    (loadCompanyDataFinal (some "AAPL") demoCardState
      (Except.error "boom")).error =
      some (jsMessageOr "boom" "Failed to load company data") :=
  error_atomicity appleRef "boom" demoPayload (some "AAPL") demoCardState
    (by decide)

/-- C10: the detail-view transform is total on missing fields — absent
company data or absent `promise`/`truth`/`metric_sources` fields give empty
views and empty citation lists rather than failures, and a falsy ticker
makes `CardPopup` render nothing and issue no fetch. -/
theorem missing_fields_total (d : AnalysisPayload) (key : String)
    (tk : Option String) (st : CardState)
    (result : Except String AnalysisPayload)
    (hp : d.promise = none) (ht : d.truth = none)
    (hm : d.metric_sources = none) (htk : jsFalsyStr tk = true) :
    getSampleMetrics none = [] ∧
    getFormattedPromises none = [] ∧
    getFormattedTruths none = [] ∧
    getSourcesForMetric none key = [] ∧
    getSampleMetrics (some d) = [] ∧
    getFormattedPromises (some d) = [] ∧
    getFormattedTruths (some d) = [] ∧
    getSourcesForMetric (some d) key = [] ∧
    cardPopupRender tk st = CardRender.nothing ∧
    loadCompanyDataActions tk result = [] := by
  refine ⟨rfl, rfl, rfl, rfl, ?_, ?_, ?_, ?_, ?_, ?_⟩ <;>
    simp [getSampleMetrics, getFormattedPromises, getFormattedTruths,
      getSourcesForMetric, cardPopupRender, loadCompanyDataActions,
      hp, ht, hm, htk]

/-- Witness for C10 at an all-absent payload and an absent ticker. -/
theorem missing_fields_total_witness :
    getSampleMetrics none = [] ∧
    getFormattedPromises none = [] ∧
    getFormattedTruths none = [] ∧
    getSourcesForMetric none "ghg_emissions" = [] ∧
    getSampleMetrics (some demoPayload) = [] ∧
    getFormattedPromises (some demoPayload) = [] ∧
    getFormattedTruths (some demoPayload) = [] ∧
    getSourcesForMetric (some demoPayload) "ghg_emissions" = [] ∧
    cardPopupRender none demoCardState = CardRender.nothing ∧
    loadCompanyDataActions none (Except.error "boom") = [] :=
  missing_fields_total demoPayload "ghg_emissions" none demoCardState
    (Except.error "boom") rfl rfl rfl (by decide)

end Fintech
